import Mathlib

/-!
Verification of the `lambdautils` SNS deduplication lock (`SNSLock`) of the
`awsutils` repository.  The Go source in `sns_lock.go` is shallowly embedded:

* `SNSLock` carries the four exported configuration fields; the injectable
  clock (`nowFunc`) and DynamoDB client (`svcFunc`) of the Go struct are
  modelled as explicit parameters (`now : Int` epoch seconds, and a `put`
  oracle giving the outcome of each `PutItem` attempt).
* Go `int64` fields are modelled as mathematical `Int`: none of the
  operations verified here performs wrap-around arithmetic on them.
* A Go `error` returned by DynamoDB is modelled by `DynErr`, which records
  exactly the two observations `AvailableById` makes of it: the `Error()`
  string and, when the value implements `awserr.Error`, its `Code()`.
* `encoding/json.Unmarshal` into the `SNSLock` struct is modelled over a
  `JsonVal` tree (`unmarshalSNSLock`); numbers are modelled as integers and
  Go's case-insensitive key fallback is not modelled (every key exercised
  here is an exact lowercase tag match).
-/

/-- Naive list prefix test, used to model Go `strings.Contains`. -/
def listStartsWith : List Char → List Char → Bool
  | [], _ => true
  | _ :: _, [] => false
  | a :: as, b :: bs => a == b && listStartsWith as bs

/-- Substring occurrence test on character lists. -/
def listContainsSub (needle : List Char) : List Char → Bool
  | [] => listStartsWith needle []
  | c :: cs => listStartsWith needle (c :: cs) || listContainsSub needle cs

/-- Model of Go `strings.Contains hay needle`. -/
def strContains (hay needle : String) : Bool :=
  listContainsSub needle.data hay.data

/-- The AWS SDK constant `dynamodb.ErrCodeConditionalCheckFailedException`. -/
def ErrCodeConditionalCheckFailedException : String :=
  "ConditionalCheckFailedException"

/-- A DynamoDB `PutItem` error as observed by `AvailableById`: its `Error()`
string and, when the dynamic type assertion to `awserr.Error` succeeds, its
error `Code()`. -/
structure DynErr where
  msg : String
  awsCode : Option String
  deriving DecidableEq, Repr

/-- The exported configuration fields of the Go `SNSLock` struct.  The
unexported `nowFunc`/`svcFunc` test seams are passed explicitly to the
operations that use them. -/
structure SNSLock where
  Region : String
  Table : String
  TTL : Int
  RetryWait : Int
  deriving DecidableEq, Repr

/-- Embedding of `NewSNSLock(region, table, ttl, retry)`. -/
def NewSNSLock (region table : String) (ttl retry : Int) : SNSLock :=
  let lock : SNSLock := { Region := region, Table := table, TTL := ttl, RetryWait := retry }
  let lock := if lock.TTL = 0 then { lock with TTL := 300 } else lock
  let lock := if lock.RetryWait = 0 then { lock with RetryWait := 500 } else lock
  lock

/-- A JSON document; numbers are modelled as integers (all configuration
numbers handled by the lock are `int64`). -/
inductive JsonVal where
  | str (s : String)
  | num (n : Int)
  | bool (b : Bool)
  | null
  | arr (elems : List JsonVal)
  | obj (fields : List (String × JsonVal))

/-- The zero value of the `SNSLock` struct, the starting point of
`json.Unmarshal`. -/
def zeroSNSLock : SNSLock :=
  { Region := "", Table := "", TTL := 0, RetryWait := 0 }

/-- One field of the JSON object applied to the struct, following the tags
`region`, `table`, `ttl`, `retry-wait`: matching keys must carry the field's
type (JSON `null` leaves the field untouched), unknown keys are ignored,
later duplicates overwrite earlier ones. -/
def applyJsonField (lock : SNSLock) : String × JsonVal → Except String SNSLock
  | ("region", .str s) => .ok { lock with Region := s }
  | ("region", .null) => .ok lock
  | ("region", _) =>
      .error "json: cannot unmarshal value into Go struct field SNSLock.region of type string"
  | ("table", .str s) => .ok { lock with Table := s }
  | ("table", .null) => .ok lock
  | ("table", _) =>
      .error "json: cannot unmarshal value into Go struct field SNSLock.table of type string"
  | ("ttl", .num n) => .ok { lock with TTL := n }
  | ("ttl", .null) => .ok lock
  | ("ttl", _) =>
      .error "json: cannot unmarshal value into Go struct field SNSLock.ttl of type int64"
  | ("retry-wait", .num n) => .ok { lock with RetryWait := n }
  | ("retry-wait", .null) => .ok lock
  | ("retry-wait", _) =>
      .error "json: cannot unmarshal value into Go struct field SNSLock.retry-wait of type int64"
  | (_, _) => .ok lock

/-- Model of `json.Unmarshal([]byte(s), lock)` for the `SNSLock` struct: the
document must be a JSON object; its fields are applied in order. -/
def unmarshalSNSLock : JsonVal → Except String SNSLock
  | .obj fields => fields.foldlM applyJsonField zeroSNSLock
  | _ => .error "json: cannot unmarshal value into Go value of type lambdautils.SNSLock"

/-- Embedding of `NewSNSLockFromJson`, over the parsed form of the document. -/
def NewSNSLockFromJson (j : JsonVal) : Except String SNSLock :=
  match unmarshalSNSLock j with
  | .error e => .error e
  | .ok lock =>
    if lock.Region = "" then .error "region is required"
    else if lock.Table = "" then .error "table is required"
    else
      let lock := if lock.TTL = 0 then { lock with TTL := 300 } else lock
      let lock := if lock.RetryWait = 0 then { lock with RetryWait := 500 } else lock
      .ok lock

/-- Embedding of `(lock) expires()`: `time.Duration(lock.TTL) * time.Second`
is `TTL * 10^9` nanoseconds; `now().Add(d).Unix()`, with the clock on a whole
second, is `now` plus the duration floor-divided into seconds. -/
def SNSLock.expires (lock : SNSLock) (now : Int) : String :=
  let d : Int := lock.TTL * 1000000000
  let t : Int := now + d / 1000000000
  toString t

/-- Embedding of `(lock) current()`: `strconv.FormatInt(now().Unix(), 10)`. -/
def SNSLock.current (_lock : SNSLock) (now : Int) : String :=
  toString now

/-- A DynamoDB attribute value carrying the `S` or `N` member, as used by
`putItemInput`. -/
structure AttributeValue where
  S : Option String
  N : Option String
  deriving DecidableEq, Repr

/-- The parts of `dynamodb.PutItemInput` populated by `putItemInput`. -/
structure PutItemInput where
  Item : List (String × AttributeValue)
  TableName : String
  ConditionExpression : String
  ExpressionAttributeValues : List (String × AttributeValue)
  deriving DecidableEq, Repr

/-- Embedding of `(lock) putItemInput(id)`. -/
def SNSLock.putItemInput (lock : SNSLock) (now : Int) (id : String) : PutItemInput :=
  let condition := "attribute_not_exists(id) OR :cur > expire"
  { Item := [("id", { S := some id, N := none }),
             ("expire", { S := none, N := some (lock.expires now) })],
    TableName := lock.Table,
    ConditionExpression := condition,
    ExpressionAttributeValues := [(":cur", { S := none, N := some (lock.current now) })] }

/-- The literal scanned for by the transient-error test in `AvailableById`. -/
def connResetMsg : String := "connection reset by peer"

/-- The `for attempts := 1; attempts <= 12; attempts++` loop of
`AvailableById`, over an oracle `put` giving the outcome of each numbered
`PutItem` attempt (`none` = success).  Returns the error variable as left by
the loop, the list of sleep durations performed (each `time.Sleep` is
`lock.TTL` milliseconds), and the number of `PutItem` calls made.
`budget` is the number of loop iterations still allowed and `prev` the error
left by the previous iteration. -/
def putLoopAux (lock : SNSLock) (put : Nat → Option DynErr) :
    Nat → Nat → Option DynErr → Option DynErr × List Int × Nat
  | 0, _, prev => (prev, [], 0)
  | budget + 1, attempt, _ =>
    match put attempt with
    | none => (none, [], 1)
    | some e =>
      if strContains e.msg connResetMsg then
        let r := putLoopAux lock put budget (attempt + 1) (some e)
        (r.1, lock.TTL :: r.2.1, r.2.2 + 1)
      else (some e, [], 1)

/-- The loop as run by `AvailableById`: 12 attempts, starting at attempt 1,
with the error variable initially `nil`. -/
def SNSLock.putLoop (lock : SNSLock) (put : Nat → Option DynErr) :
    Option DynErr × List Int × Nat :=
  putLoopAux lock put 12 1 none

/-- The post-loop classification of `AvailableById`: `nil` error means the
id was claimed; a `ConditionalCheckFailedException` code means locked with
no error; anything else is wrapped with `errors.Wrapf(err, "failed put %v
to %v", id, lock.Table)`. -/
def SNSLock.classify (lock : SNSLock) (id : String) : Option DynErr → Bool × Option String
  | none => (true, none)
  | some e =>
    if e.awsCode = some ErrCodeConditionalCheckFailedException then (false, none)
    else (false, some ("failed put " ++ id ++ " to " ++ lock.Table ++ ": " ++ e.msg))

/-- Embedding of `(lock) AvailableById(id)`.  `sess` is the outcome of
`session.NewSession` (`some e` = failure with cause string `e`); `put` is
the DynamoDB client's `PutItem`, one outcome per attempt number.  Returns
the `(bool, error)` pair together with the sleep trace and the number of
`PutItem` calls. -/
def SNSLock.availableById (lock : SNSLock) (sess : Option String)
    (put : Nat → Option DynErr) (id : String) :
    (Bool × Option String) × List Int × Nat :=
  match sess with
  | some e => ((false, some ("failed getting session: " ++ e)), [], 0)
  | none =>
    let r := lock.putLoop put
    (lock.classify id r.1, r.2.1, r.2.2)

/-- The error DynamoDB returns when the conditional check of a `PutItem`
fails: an `awserr.Error` with code `ConditionalCheckFailedException`. -/
def condCheckFailedErr : DynErr :=
  { msg := "ConditionalCheckFailedException: The conditional request failed",
    awsCode := some ErrCodeConditionalCheckFailedException }

/-- Strongly-consistent store model for a single fingerprint id: the state
is the numeric `expire` attribute of the stored claim record (`none` = no
record).  It interprets the request built by `putItemInput` at the numeric
level — the `expire` item attribute is the decimal string of `now +
lock.TTL` and `:cur` that of `now` (see `putItemInput_spec`) — evaluating
the condition `attribute_not_exists(id) OR :cur > expire`. -/
def storePut (lock : SNSLock) (now : Int) (st : Option Int) :
    Option Int × Option DynErr :=
  match st with
  | none => (some (now + lock.TTL), none)
  | some expire =>
    if now > expire then (some (now + lock.TTL), none)
    else (some expire, some condCheckFailedErr)

/-- One `AvailableById` call against the store model: the store serves every
attempt from the same state (the model store is consistent and fails
deterministically, so at most one attempt runs).  Returns the `(bool,
error)` result and the resulting store state. -/
def SNSLock.claimAttempt (lock : SNSLock) (now : Int) (id : String)
    (st : Option Int) : (Bool × Option String) × Option Int :=
  let r := storePut lock now st
  ((lock.availableById none (fun _ => r.2) id).1, r.1)

/-- The `SNS` member of an SNS event record, reduced to the field the lock
reads. -/
structure SNSEntity where
  Message : String
  deriving DecidableEq, Repr

/-- One record of an `events.SNSEvent`. -/
structure SNSEventRecord where
  SNS : SNSEntity
  deriving DecidableEq, Repr

/-- The `events.SNSEvent` envelope. -/
structure SNSEvent where
  Records : List SNSEventRecord
  deriving DecidableEq, Repr

/-- UTF-8 encoding of one character (Go `[]byte(message)` on a string
yields its UTF-8 bytes). -/
def utf8Char (c : Char) : List Nat :=
  let n := c.toNat
  if n < 0x80 then [n]
  else if n < 0x800 then
    [0xC0 ||| (n >>> 6), 0x80 ||| (n &&& 0x3F)]
  else if n < 0x10000 then
    [0xE0 ||| (n >>> 12), 0x80 ||| ((n >>> 6) &&& 0x3F), 0x80 ||| (n &&& 0x3F)]
  else
    [0xF0 ||| (n >>> 18), 0x80 ||| ((n >>> 12) &&& 0x3F),
     0x80 ||| ((n >>> 6) &&& 0x3F), 0x80 ||| (n &&& 0x3F)]

/-- UTF-8 bytes of a string, the Go `[]byte` conversion. -/
def utf8Encode (s : String) : List Nat :=
  s.data.flatMap utf8Char

/-- Right rotation of a 32-bit word held as a `Nat` below `2^32`. -/
def rotr32 (x n : Nat) : Nat :=
  (x >>> n) ||| ((x <<< (32 - n)) % 4294967296)

/-- SHA-256 message-schedule sigma-0. -/
def sigma0 (x : Nat) : Nat := rotr32 x 7 ^^^ rotr32 x 18 ^^^ (x >>> 3)

/-- SHA-256 message-schedule sigma-1. -/
def sigma1 (x : Nat) : Nat := rotr32 x 17 ^^^ rotr32 x 19 ^^^ (x >>> 10)

/-- SHA-256 compression Sigma-0. -/
def bigSigma0 (x : Nat) : Nat := rotr32 x 2 ^^^ rotr32 x 13 ^^^ rotr32 x 22

/-- SHA-256 compression Sigma-1. -/
def bigSigma1 (x : Nat) : Nat := rotr32 x 6 ^^^ rotr32 x 11 ^^^ rotr32 x 25

/-- SHA-256 choice function. -/
def shaCh (x y z : Nat) : Nat := (x &&& y) ^^^ ((x ^^^ 4294967295) &&& z)

/-- SHA-256 majority function. -/
def shaMaj (x y z : Nat) : Nat := (x &&& y) ^^^ (x &&& z) ^^^ (y &&& z)

/-- The 64 SHA-256 round constants (decimal). -/
def shaK : List Nat :=
  [1116352408, 1899447441, 3049323471, 3921009573, 961987163, 1508970993,
   2453635748, 2870763221, 3624381080, 310598401, 607225278, 1426881987,
   1925078388, 2162078206, 2614888103, 3248222580, 3835390401, 4022224774,
   264347078, 604807628, 770255983, 1249150122, 1555081692, 1996064986,
   2554220882, 2821834349, 2952996808, 3210313671, 3336571891, 3584528711,
   113926993, 338241895, 666307205, 773529912, 1294757372, 1396182291,
   1695183700, 1986661051, 2177026350, 2456956037, 2730485921, 2820302411,
   3259730800, 3345764771, 3516065817, 3600352804, 4094571909, 275423344,
   430227734, 506948616, 659060556, 883997877, 958139571, 1322822218,
   1537002063, 1747873779, 1955562222, 2024104815, 2227730452, 2361852424,
   2428436474, 2756734187, 3204031479, 3329325298]

/-- The initial SHA-256 hash state (decimal). -/
def shaInit : Nat × Nat × Nat × Nat × Nat × Nat × Nat × Nat :=
  (1779033703, 3144134277, 1013904242, 2773480762,
   1359893119, 2600822924, 528734635, 1541459225)

/-- Big-endian byte decomposition of `x` into `k` bytes. -/
def bytesBE : Nat → Nat → List Nat
  | 0, _ => []
  | k + 1, x => (x >>> (8 * k)) % 256 :: bytesBE k x

/-- SHA-256 padding: append `0x80`, zeros to 56 mod 64 bytes, then the
64-bit big-endian bit length. -/
def shaPad (msg : List Nat) : List Nat :=
  let len := msg.length
  let zeros := (119 - len % 64) % 64
  msg ++ [0x80] ++ List.replicate zeros 0 ++ bytesBE 8 ((8 * len) % 18446744073709551616)

/-- Split a byte list into 64-byte chunks; `fuel` bounds the recursion and
any value at least the list's length is enough. -/
def toChunksAux : Nat → List Nat → List (List Nat)
  | 0, _ => []
  | _, [] => []
  | fuel + 1, b :: bs => ((b :: bs).take 64) :: toChunksAux fuel ((b :: bs).drop 64)

/-- Split a byte list into 64-byte chunks. -/
def toChunks (l : List Nat) : List (List Nat) :=
  toChunksAux l.length l

/-- Pack a 64-byte chunk into its 16 big-endian 32-bit words. -/
def toWords : List Nat → List Nat
  | b0 :: b1 :: b2 :: b3 :: rest =>
    ((b0 <<< 24) ||| (b1 <<< 16) ||| (b2 <<< 8) ||| b3) :: toWords rest
  | _ => []

/-- Extend the 16 message-schedule words by `n` further words. -/
def extendSchedule (w : List Nat) : Nat → List Nat
  | 0 => w
  | n + 1 =>
    let i := w.length
    let t := (w.getD (i - 16) 0 + sigma0 (w.getD (i - 15) 0) +
              w.getD (i - 7) 0 + sigma1 (w.getD (i - 2) 0)) % 4294967296
    extendSchedule (w ++ [t]) n

/-- One SHA-256 round over the working state for round constant `k` and
schedule word `w`. -/
def shaRound (st : Nat × Nat × Nat × Nat × Nat × Nat × Nat × Nat)
    (kw : Nat × Nat) : Nat × Nat × Nat × Nat × Nat × Nat × Nat × Nat :=
  let (a, b, c, d, e, f, g, h) := st
  let (k, w) := kw
  let t1 := (h + bigSigma1 e + shaCh e f g + k + w) % 4294967296
  let t2 := (bigSigma0 a + shaMaj a b c) % 4294967296
  ((t1 + t2) % 4294967296, a, b, c, (d + t1) % 4294967296, e, f, g)

/-- Compress one 64-byte chunk into the hash state. -/
def shaCompress (st : Nat × Nat × Nat × Nat × Nat × Nat × Nat × Nat)
    (chunk : List Nat) : Nat × Nat × Nat × Nat × Nat × Nat × Nat × Nat :=
  let w := extendSchedule (toWords chunk) 48
  let (a, b, c, d, e, f, g, h) := (shaK.zip w).foldl shaRound st
  let (a0, b0, c0, d0, e0, f0, g0, h0) := st
  ((a0 + a) % 4294967296, (b0 + b) % 4294967296, (c0 + c) % 4294967296,
   (d0 + d) % 4294967296, (e0 + e) % 4294967296, (f0 + f) % 4294967296,
   (g0 + g) % 4294967296, (h0 + h) % 4294967296)

/-- SHA-256 digest of a byte sequence, as 32 bytes
(`crypto/sha256.Sum256`). -/
def sha256 (msg : List Nat) : List Nat :=
  let (a, b, c, d, e, f, g, h) := (toChunks (shaPad msg)).foldl shaCompress shaInit
  bytesBE 4 a ++ bytesBE 4 b ++ bytesBE 4 c ++ bytesBE 4 d ++
  bytesBE 4 e ++ bytesBE 4 f ++ bytesBE 4 g ++ bytesBE 4 h

/-- Lowercase hexadecimal digit. -/
def hexDigit : Nat → Char
  | 0 => '0' | 1 => '1' | 2 => '2' | 3 => '3' | 4 => '4' | 5 => '5'
  | 6 => '6' | 7 => '7' | 8 => '8' | 9 => '9' | 10 => 'a' | 11 => 'b'
  | 12 => 'c' | 13 => 'd' | 14 => 'e' | _ => 'f'

/-- Two lowercase hex characters of a byte (Go `fmt.Sprintf("%x", sum)`). -/
def byteHex (b : Nat) : List Char := [hexDigit (b / 16), hexDigit (b % 16)]

/-- Lowercase hex encoding of a byte sequence. -/
def hexEncode (bs : List Nat) : String :=
  ⟨bs.flatMap byteHex⟩

/-- Placeholder record returned by `List.headD` on an empty record list;
Go `snsEvent.Records[0]` would panic there, a case never reached by the
verified paths (`Available` only calls `messageHash` after checking the
record count is 1). -/
def emptySNSRecord : SNSEventRecord := { SNS := { Message := "" } }

/-- Embedding of `(lock) messageHash(snsEvent)`: the lowercase-hex SHA-256
of the first record's message. -/
def SNSLock.messageHash (_lock : SNSLock) (snsEvent : SNSEvent) : String :=
  let message := (snsEvent.Records.headD emptySNSRecord).SNS.Message
  hexEncode (sha256 (utf8Encode message))

/-- Embedding of `(lock) Available(snsEvent)`: cardinality check, then
fingerprint, then `AvailableById`. -/
def SNSLock.Available (lock : SNSLock) (sess : Option String)
    (put : Nat → Option DynErr) (snsEvent : SNSEvent) :
    (Bool × Option String) × List Int × Nat :=
  if snsEvent.Records.length ≠ 1 then
    ((false, some ("expected only 1 SNS event, received: " ++
        toString snsEvent.Records.length)), [], 0)
  else
    lock.availableById sess put (lock.messageHash snsEvent)

/-- A plain (non-`awserr`) transient connection-reset error, as a concrete
test input. -/
def connResetErr : DynErr :=
  { msg := "read tcp: connection reset by peer", awsCode := none }

/-- A hypothetical error that is both conditional-check-failed by code and
transient by message text, as a concrete test input. -/
def condConnResetErr : DynErr :=
  { msg := "ConditionalCheckFailedException: connection reset by peer",
    awsCode := some ErrCodeConditionalCheckFailedException }

theorem expires_eq_add (lock : SNSLock) (now : Int) :
    lock.expires now = toString (now + lock.TTL) := by
  have h : (lock.TTL * 1000000000 : Int) / 1000000000 = lock.TTL :=
    Int.mul_ediv_cancel _ (by norm_num)
  simp only [SNSLock.expires, h]

theorem putLoopAux_success (lock : SNSLock) (put : Nat → Option DynErr)
    (budget attempt : Nat) (prev : Option DynErr) (h : put attempt = none) :
    putLoopAux lock put (budget + 1) attempt prev = (none, [], 1) := by
  simp [putLoopAux, h]

theorem putLoopAux_break (lock : SNSLock) (put : Nat → Option DynErr)
    (budget attempt : Nat) (prev : Option DynErr) (e : DynErr)
    (h : put attempt = some e) (ht : strContains e.msg connResetMsg = false) :
    putLoopAux lock put (budget + 1) attempt prev = (some e, [], 1) := by
  simp [putLoopAux, h, ht]

theorem putLoopAux_retry (lock : SNSLock) (put : Nat → Option DynErr)
    (budget attempt : Nat) (prev : Option DynErr) (e : DynErr)
    (h : put attempt = some e) (ht : strContains e.msg connResetMsg = true) :
    putLoopAux lock put (budget + 1) attempt prev =
      ((putLoopAux lock put budget (attempt + 1) (some e)).1,
       lock.TTL :: (putLoopAux lock put budget (attempt + 1) (some e)).2.1,
       (putLoopAux lock put budget (attempt + 1) (some e)).2.2 + 1) := by
  simp [putLoopAux, h, ht]

theorem putLoopAux_const_transient (lock : SNSLock) (e : DynErr)
    (ht : strContains e.msg connResetMsg = true) :
    ∀ budget attempt prev, 1 ≤ budget →
      putLoopAux lock (fun _ => some e) budget attempt prev =
        (some e, List.replicate budget lock.TTL, budget) := by
  intro budget
  induction budget with
  | zero => intro _ _ h; omega
  | succ b ih =>
    intro attempt prev _
    rw [putLoopAux_retry lock _ b attempt prev e rfl ht]
    rcases Nat.eq_zero_or_pos b with hb | hb
    · subst hb
      simp [putLoopAux]
    · rw [ih (attempt + 1) (some e) hb]
      simp [List.replicate_succ]

theorem putLoopAux_calls_le (lock : SNSLock) (put : Nat → Option DynErr) :
    ∀ budget attempt prev,
      (putLoopAux lock put budget attempt prev).2.2 ≤ budget := by
  intro budget
  induction budget with
  | zero => intro _ _; simp [putLoopAux]
  | succ b ih =>
    intro attempt prev
    cases h : put attempt with
    | none => rw [putLoopAux_success lock put b attempt prev h]; simp
    | some e =>
      cases ht : strContains e.msg connResetMsg with
      | false => rw [putLoopAux_break lock put b attempt prev e h ht]; simp
      | true =>
        rw [putLoopAux_retry lock put b attempt prev e h ht]
        have := ih (attempt + 1) (some e)
        simp
        omega

theorem putLoopAux_TTL_congr (lock1 lock2 : SNSLock) (hT : lock1.TTL = lock2.TTL)
    (put : Nat → Option DynErr) :
    ∀ budget attempt prev,
      putLoopAux lock1 put budget attempt prev = putLoopAux lock2 put budget attempt prev := by
  intro budget
  induction budget with
  | zero => intro _ _; rfl
  | succ b ih =>
    intro attempt prev
    cases h : put attempt with
    | none =>
      rw [putLoopAux_success lock1 put b attempt prev h,
          putLoopAux_success lock2 put b attempt prev h]
    | some e =>
      cases ht : strContains e.msg connResetMsg with
      | false =>
        rw [putLoopAux_break lock1 put b attempt prev e h ht,
            putLoopAux_break lock2 put b attempt prev e h ht]
      | true =>
        rw [putLoopAux_retry lock1 put b attempt prev e h ht,
            putLoopAux_retry lock2 put b attempt prev e h ht,
            ih (attempt + 1) (some e), hT]

theorem putLoop_first_success (lock : SNSLock) (put : Nat → Option DynErr)
    (h : put 1 = none) : lock.putLoop put = (none, [], 1) := by
  unfold SNSLock.putLoop
  rw [show (12 : Nat) = 11 + 1 from rfl]
  exact putLoopAux_success lock put 11 1 none h

theorem putLoop_first_break (lock : SNSLock) (put : Nat → Option DynErr) (e : DynErr)
    (h : put 1 = some e) (ht : strContains e.msg connResetMsg = false) :
    lock.putLoop put = (some e, [], 1) := by
  unfold SNSLock.putLoop
  rw [show (12 : Nat) = 11 + 1 from rfl]
  exact putLoopAux_break lock put 11 1 none e h ht

theorem putLoop_const_transient (lock : SNSLock) (e : DynErr)
    (ht : strContains e.msg connResetMsg = true) :
    lock.putLoop (fun _ => some e) = (some e, List.replicate 12 lock.TTL, 12) :=
  putLoopAux_const_transient lock e ht 12 1 none (by norm_num)

theorem putLoop_const_err (lock : SNSLock) (e : DynErr) :
    (lock.putLoop (fun _ => some e)).1 = some e := by
  cases ht : strContains e.msg connResetMsg with
  | false => rw [putLoop_first_break lock _ e rfl ht]
  | true => rw [putLoop_const_transient lock e ht]

theorem classify_table_congr (lock1 lock2 : SNSLock) (hT : lock1.Table = lock2.Table)
    (id : String) (o : Option DynErr) :
    lock1.classify id o = lock2.classify id o := by
  cases o with
  | none => rfl
  | some e => simp [SNSLock.classify, hT]

theorem availableById_first_success (lock : SNSLock) (put : Nat → Option DynErr)
    (id : String) (h : put 1 = none) :
    lock.availableById none put id = ((true, none), [], 1) := by
  simp [SNSLock.availableById, putLoop_first_success lock put h, SNSLock.classify]

theorem availableById_const_err_result (lock : SNSLock) (e : DynErr) (id : String) :
    (lock.availableById none (fun _ => some e) id).1 = lock.classify id (some e) := by
  simp [SNSLock.availableById, putLoop_const_err lock e]

theorem availableById_calls_le (lock : SNSLock) (put : Nat → Option DynErr)
    (id : String) : (lock.availableById none put id).2.2 ≤ 12 := by
  simp only [SNSLock.availableById, SNSLock.putLoop]
  exact putLoopAux_calls_le lock put 12 1 none

theorem availableById_retryWait_congr (lock : SNSLock) (r : Int)
    (sess : Option String) (put : Nat → Option DynErr) (id : String) :
    SNSLock.availableById { lock with RetryWait := r } sess put id =
      lock.availableById sess put id := by
  cases sess with
  | some e => rfl
  | none =>
    simp only [SNSLock.availableById, SNSLock.putLoop]
    rw [putLoopAux_TTL_congr { lock with RetryWait := r } lock rfl put 12 1 none,
        classify_table_congr { lock with RetryWait := r } lock rfl]

theorem claimAttempt_fresh (lock : SNSLock) (now : Int) (id : String) :
    lock.claimAttempt now id none = ((true, none), some (now + lock.TTL)) := by
  have h := availableById_first_success lock (fun _ => (none : Option DynErr)) id rfl
  simp [SNSLock.claimAttempt, storePut, h]

theorem claimAttempt_locked (lock : SNSLock) (now : Int) (id : String) (expire : Int)
    (h : ¬ (now > expire)) :
    lock.claimAttempt now id (some expire) = ((false, none), some expire) := by
  have hc := availableById_const_err_result lock condCheckFailedErr id
  have hcls : lock.classify id (some condCheckFailedErr) = (false, none) := by
    simp [SNSLock.classify, condCheckFailedErr]
  simp [SNSLock.claimAttempt, storePut, h, hc, hcls]

theorem claimAttempt_expired (lock : SNSLock) (now : Int) (id : String) (expire : Int)
    (h : now > expire) :
    lock.claimAttempt now id (some expire) = ((true, none), some (now + lock.TTL)) := by
  have hs := availableById_first_success lock (fun _ => (none : Option DynErr)) id rfl
  simp [SNSLock.claimAttempt, storePut, h, hs]

theorem bytesBE_length (k x : Nat) : (bytesBE k x).length = k := by
  induction k generalizing x with
  | zero => rfl
  | succ n ih => simp [bytesBE, ih]

theorem sha256_length (msg : List Nat) : (sha256 msg).length = 32 := by
  unfold sha256
  rcases hfold : (toChunks (shaPad msg)).foldl shaCompress shaInit with
    ⟨a, b, c, d, e, f, g, h⟩
  simp [bytesBE_length]

theorem hexEncode_length (bs : List Nat) : (hexEncode bs).length = 2 * bs.length := by
  show (bs.flatMap byteHex).length = 2 * bs.length
  induction bs with
  | nil => rfl
  | cons b tl ih =>
    simp only [List.flatMap_cons, List.length_append, ih, byteHex, List.length_cons,
      List.length_nil]
    omega

theorem messageHash_length (lock : SNSLock) (ev : SNSEvent) :
    (lock.messageHash ev).length = 64 := by
  unfold SNSLock.messageHash
  rw [hexEncode_length, sha256_length]

/-- C1: Per-fingerprint claim state machine, against the strongly-consistent
store model: the first claim attempt for a fresh fingerprint id returns
`(true, nil)` and stores a record with `expire = now + TTL`; a second attempt
for the same id made while `now2 ≤ expire` of the stored record returns
`(false, nil)` and leaves the stored record unchanged; an attempt made when
`now2 > expire` returns `(true, nil)` and overwrites the record with a new
`expire = now2 + TTL`. -/
theorem C1_claim_state_machine (lock : SNSLock) (id : String) (now now2 : Int) :
    lock.claimAttempt now id none = ((true, none), some (now + lock.TTL)) ∧
    (now2 ≤ now + lock.TTL →
      lock.claimAttempt now2 id (lock.claimAttempt now id none).2 =
        ((false, none), (lock.claimAttempt now id none).2)) ∧
    (now2 > now + lock.TTL →
      lock.claimAttempt now2 id (lock.claimAttempt now id none).2 =
        ((true, none), some (now2 + lock.TTL))) := by
  have hf := claimAttempt_fresh lock now id
  refine ⟨hf, fun h => ?_, fun h => ?_⟩
  · rw [hf]
    exact claimAttempt_locked lock now2 id (now + lock.TTL) (by omega)
  · rw [hf]
    exact claimAttempt_expired lock now2 id (now + lock.TTL) h

theorem C1_claim_state_machine_witness :
    ((NewSNSLock "r" "t" 15 0).claimAttempt 1000 "id1" none =
      ((true, none), some 1015)) ∧
    ((NewSNSLock "r" "t" 15 0).claimAttempt 1010 "id1"
        ((NewSNSLock "r" "t" 15 0).claimAttempt 1000 "id1" none).2 =
      ((false, none), ((NewSNSLock "r" "t" 15 0).claimAttempt 1000 "id1" none).2)) ∧
    ((NewSNSLock "r" "t" 15 0).claimAttempt 1016 "id1"
        ((NewSNSLock "r" "t" 15 0).claimAttempt 1000 "id1" none).2 =
      ((true, none), some 1031)) := by
  have h := C1_claim_state_machine (NewSNSLock "r" "t" 15 0) "id1" 1000 1010
  have h2 := C1_claim_state_machine (NewSNSLock "r" "t" 15 0) "id1" 1000 1016
  exact ⟨h.1.trans (by decide), h.2.1 (by decide), (h2.2.2 (by decide)).trans (by decide)⟩

/-- C2: Outcome classification of `AvailableById`: a successful `PutItem`
gives `(true, nil)`; a `PutItem` failure carrying the
conditional-check-failed code gives `(false, nil)`; any other non-transient
failure gives `(false, err)` where `err` wraps the cause and identifies the
fingerprint id and the table name. -/
theorem C2_outcome_classification (lock : SNSLock) (id : String)
    (put : Nat → Option DynErr) (e : DynErr) :
    (put 1 = none → lock.availableById none put id = ((true, none), [], 1)) ∧
    (e.awsCode = some ErrCodeConditionalCheckFailedException →
      (lock.availableById none (fun _ => some e) id).1 = (false, none)) ∧
    (e.awsCode ≠ some ErrCodeConditionalCheckFailedException →
      strContains e.msg connResetMsg = false →
      (lock.availableById none (fun _ => some e) id).1 =
        (false, some ("failed put " ++ id ++ " to " ++ lock.Table ++ ": " ++ e.msg))) := by
  refine ⟨fun h => availableById_first_success lock put id h, fun hc => ?_, fun hc ht => ?_⟩
  · rw [availableById_const_err_result lock e id]
    simp [SNSLock.classify, hc]
  · rw [availableById_const_err_result lock e id]
    simp [SNSLock.classify, hc]

theorem C2_outcome_classification_witness :
    ((NewSNSLock "r1" "t1" 900 0).availableById none (fun _ => none) "1234" =
      ((true, none), [], 1)) ∧
    (((NewSNSLock "r1" "t1" 900 0).availableById none
        (fun _ => some condCheckFailedErr) "1234").1 = (false, none)) ∧
    (((NewSNSLock "r1" "t1" 900 0).availableById none
        (fun _ => some { msg := "test fail", awsCode := none }) "1234").1 =
      (false, some "failed put 1234 to t1: test fail")) := by
  have h := C2_outcome_classification (NewSNSLock "r1" "t1" 900 0) "1234"
    (fun _ => none) condCheckFailedErr
  have h2 := C2_outcome_classification (NewSNSLock "r1" "t1" 900 0) "1234"
    (fun _ => none) { msg := "test fail", awsCode := none }
  exact ⟨h.1 rfl, h.2.1 (by decide), (h2.2.2 (by decide) (by decide)).trans (by decide)⟩

/-- C3: Transient-failure retry policy: when every `PutItem` attempt fails
with a transient connection-reset error (and the error does not carry the
conditional-check-failed code), `AvailableById` performs exactly 12 attempts,
sleeping `TTL` milliseconds after each failed attempt, and surfaces the last
error wrapped as the other-failure outcome `(false, err)`; for every oracle
the loop performs at most 12 attempts; and the result never depends on the
configured `RetryWait`. -/
theorem C3_transient_retry (lock : SNSLock) (id : String) (e : DynErr)
    (put : Nat → Option DynErr) (r : Int) :
    (strContains e.msg connResetMsg = true →
      e.awsCode ≠ some ErrCodeConditionalCheckFailedException →
      lock.availableById none (fun _ => some e) id =
        ((false, some ("failed put " ++ id ++ " to " ++ lock.Table ++ ": " ++ e.msg)),
         List.replicate 12 lock.TTL, 12)) ∧
    (lock.availableById none put id).2.2 ≤ 12 ∧
    SNSLock.availableById { lock with RetryWait := r } none put id =
      lock.availableById none put id := by
  refine ⟨fun ht hc => ?_, availableById_calls_le lock put id,
    availableById_retryWait_congr lock r none put id⟩
  simp only [SNSLock.availableById]
  rw [putLoop_const_transient lock e ht]
  simp [SNSLock.classify, hc]

theorem C3_transient_retry_witness :
    ((NewSNSLock "r1" "t1" 900 7).availableById none (fun _ => some connResetErr) "1234" =
      ((false, some "failed put 1234 to t1: read tcp: connection reset by peer"),
       List.replicate 12 900, 12)) ∧
    (SNSLock.availableById { NewSNSLock "r1" "t1" 900 7 with RetryWait := 123 } none
        (fun _ => some connResetErr) "1234" =
      (NewSNSLock "r1" "t1" 900 7).availableById none (fun _ => some connResetErr) "1234") := by
  have h := C3_transient_retry (NewSNSLock "r1" "t1" 900 7) "1234" connResetErr
    (fun _ => some connResetErr) 123
  exact ⟨(h.1 (by decide) (by decide)).trans (by decide), h.2.2⟩

/-- C4 (counterexample): `NewSNSLock` called with `ttl = -1` leaves the
negative TTL unchanged, so the claimed post-construction positivity fails
for this input. -/
theorem C4_construction_positivity_counterexample :
    (NewSNSLock "r" "t" (-1) 1).TTL = -1 ∧
    ¬ (0 < (NewSNSLock "r" "t" (-1) 1).TTL ∧
       0 < (NewSNSLock "r" "t" (-1) 1).RetryWait) := by
  decide

/-- C4 (amended): for every input with nonnegative `ttl` and `retry`, the
lock returned by `NewSNSLock`, and every lock returned by
`NewSNSLockFromJson` from a document carrying nonnegative `ttl` and
`retry-wait` values, has `TTL > 0` and `RetryWait > 0` (zero inputs are
coerced to the defaults); a negative input is kept unchanged, violating
positivity. -/
theorem C4_construction_positivity (region table : String) (ttl retry : Int)
    (j : JsonVal) (lock0 lock : SNSLock) :
    (0 ≤ ttl → 0 ≤ retry →
      0 < (NewSNSLock region table ttl retry).TTL ∧
      0 < (NewSNSLock region table ttl retry).RetryWait) ∧
    (unmarshalSNSLock j = .ok lock0 → 0 ≤ lock0.TTL → 0 ≤ lock0.RetryWait →
      NewSNSLockFromJson j = .ok lock →
      0 < lock.TTL ∧ 0 < lock.RetryWait) := by
  constructor
  · intro h1 h2
    by_cases ht : ttl = 0 <;> by_cases hr : retry = 0 <;>
      simp [NewSNSLock, ht, hr] <;> omega
  · intro hu h1 h2 hok
    unfold NewSNSLockFromJson at hok
    rw [hu] at hok
    dsimp only at hok
    split_ifs at hok <;> simp only [Except.ok.injEq, reduceCtorEq] at hok
    all_goals subst hok
    all_goals constructor
    all_goals try simp_all
    all_goals omega

theorem C4_construction_positivity_witness :
    (0 < (NewSNSLock "r3" "t3" 0 30).TTL ∧
     0 < (NewSNSLock "r3" "t3" 0 30).RetryWait) ∧
    (0 < (SNSLock.mk "r3" "t3" 300 500).TTL ∧
     0 < (SNSLock.mk "r3" "t3" 300 500).RetryWait) := by
  have h := C4_construction_positivity "r3" "t3" 0 30
    (.obj [("region", .str "r3"), ("table", .str "t3")])
    (SNSLock.mk "r3" "t3" 0 0) (SNSLock.mk "r3" "t3" 300 500)
  exact ⟨h.1 (by decide) (by decide), h.2 rfl (by decide) (by decide) rfl⟩

/-- C5: Configuration-document behaviour of `NewSNSLockFromJson`: the
document with only `region` and `table` yields the defaults `TTL = 300`,
`RetryWait = 500`; adding `retry-wait = 250` keeps `TTL = 300` and sets
`RetryWait = 250`; `Region` and `Table` come from the document; and any
document whose unmarshalled `region` or `table` is absent or empty fails
with an error. -/
theorem C5_fromJson_config (j : JsonVal) (lock0 : SNSLock) :
    (NewSNSLockFromJson (.obj [("region", .str "r3"), ("table", .str "t3")]) =
      .ok { Region := "r3", Table := "t3", TTL := 300, RetryWait := 500 }) ∧
    (NewSNSLockFromJson (.obj [("region", .str "r3"), ("table", .str "t3"),
        ("retry-wait", .num 250)]) =
      .ok { Region := "r3", Table := "t3", TTL := 300, RetryWait := 250 }) ∧
    (unmarshalSNSLock j = .ok lock0 → lock0.Region = "" ∨ lock0.Table = "" →
      ∃ e, NewSNSLockFromJson j = .error e) := by
  refine ⟨rfl, rfl, fun hu hre => ?_⟩
  unfold NewSNSLockFromJson
  rw [hu]
  by_cases hR : lock0.Region = ""
  · exact ⟨"region is required", by simp [hR]⟩
  · rcases hre with h | h
    · exact absurd h hR
    · exact ⟨"table is required", by simp [hR, h]⟩

theorem C5_fromJson_config_witness :
    ∃ e, NewSNSLockFromJson (.obj [("table", .str "t3")]) = .error e :=
  (C5_fromJson_config (.obj [("table", .str "t3")])
    (SNSLock.mk "" "t3" 0 0)).2.2 rfl (Or.inl rfl)

/-- C6: Expiry arithmetic: for every fixed clock value `now` and configured
TTL, `expires` returns the decimal string of `now + TTL` and `current` the
decimal string of `now`; with `TTL = 15` and the clock at epoch
`1257894000`, `current` is `"1257894000"` and `expires` is
`"1257894015"`. -/
theorem C6_expiry_arithmetic (lock : SNSLock) (now : Int) :
    lock.expires now = toString (now + lock.TTL) ∧
    lock.current now = toString now ∧
    (NewSNSLock "r" "t" 15 0).current 1257894000 = "1257894000" ∧
    (NewSNSLock "r" "t" 15 0).expires 1257894000 = "1257894015" :=
  ⟨expires_eq_add lock now, rfl, by decide, by decide⟩

/-- C7: Conditional-write request shape: for every id, the request built by
`putItemInput` carries item fields `id` (string) and `expire` (number, the
decimal string of `now + TTL`), the configured table name, the condition
expression `attribute_not_exists(id) OR :cur > expire`, and the bound
parameter `:cur` equal to the decimal string of the current time. -/
theorem C7_putItemInput_shape (lock : SNSLock) (now : Int) (id : String) :
    lock.putItemInput now id =
      { Item := [("id", { S := some id, N := none }),
                 ("expire", { S := none, N := some (toString (now + lock.TTL)) })],
        TableName := lock.Table,
        ConditionExpression := "attribute_not_exists(id) OR :cur > expire",
        ExpressionAttributeValues :=
          [(":cur", { S := none, N := some (toString now) })] } := by
  simp [SNSLock.putItemInput, expires_eq_add, SNSLock.current]

/-- C8 (counterexample): on an envelope with zero records, `Available`
returns the error message `"expected only 1 SNS event, received: 0"`, not
the claimed `"expected only 1 event, received: 0"`. -/
theorem C8_cardinality_counterexample :
    ((NewSNSLock "r1" "t1" 900 0).Available none (fun _ => none)
        { Records := [] }).1.2 = some "expected only 1 SNS event, received: 0" ∧
    some "expected only 1 SNS event, received: 0" ≠
      some "expected only 1 event, received: 0" := by
  decide

/-- C8 (amended): for every event envelope whose record count `N` is not
exactly 1, `Available` returns `(false, err)` where `err` has message
`"expected only 1 SNS event, received: N"`, without attempting any store
operation (no `PutItem` call, no sleep, independent of the store client);
for an envelope with exactly one record it delegates to `AvailableById` on
the computed fingerprint. -/
theorem C8_cardinality_validation (lock : SNSLock) (sess : Option String)
    (put put2 : Nat → Option DynErr) (ev : SNSEvent) :
    (ev.Records.length ≠ 1 →
      lock.Available sess put ev =
        ((false, some ("expected only 1 SNS event, received: " ++
            toString ev.Records.length)), [], 0) ∧
      lock.Available sess put ev = lock.Available sess put2 ev) ∧
    (ev.Records.length = 1 →
      lock.Available sess put ev =
        lock.availableById sess put (lock.messageHash ev)) := by
  constructor
  · intro h
    constructor <;> simp [SNSLock.Available, h]
  · intro h
    simp [SNSLock.Available, h]

theorem C8_cardinality_validation_witness :
    (NewSNSLock "r1" "t1" 900 0).Available none (fun _ => none) { Records := [] } =
      ((false, some "expected only 1 SNS event, received: 0"), [], 0) := by
  have h := C8_cardinality_validation (NewSNSLock "r1" "t1" 900 0) none
    (fun _ => none) (fun _ => none) { Records := [] }
  exact ((h.1 (by decide)).1).trans (by decide)

/-- C9: Default fingerprint function: `messageHash` depends only on the
first record's raw message payload (deterministic across repeated calls and
lock instances), always yields a 64-character string — the lowercase hex
encoding of the 32-byte SHA-256 digest — and, on the payload `"abc"`,
yields the standard SHA-256 test-vector digest. -/
theorem C9_messageHash_default (lock lock2 : SNSLock) (ev ev2 : SNSEvent) :
    ((ev.Records.headD emptySNSRecord).SNS.Message =
        (ev2.Records.headD emptySNSRecord).SNS.Message →
      lock.messageHash ev = lock2.messageHash ev2) ∧
    (lock.messageHash ev).length = 64 ∧
    (NewSNSLock "r" "t" 0 0).messageHash
        { Records := [{ SNS := { Message := "abc" } }] } =
      "ba7816bf8f01cfea414140de5dae2223b00361a396177a9cb410ff61f20015ad" := by
  refine ⟨fun h => ?_, messageHash_length lock ev, by decide⟩
  unfold SNSLock.messageHash
  rw [h]

theorem C9_messageHash_default_witness :
    (NewSNSLock "r" "t" 0 0).messageHash
        { Records := [{ SNS := { Message := "abc" } }] } =
      (NewSNSLock "r2" "t2" 15 1).messageHash
        { Records := [{ SNS := { Message := "abc" } },
                      { SNS := { Message := "zzz" } }] } :=
  (C9_messageHash_default (NewSNSLock "r" "t" 0 0) (NewSNSLock "r2" "t2" 15 1)
    { Records := [{ SNS := { Message := "abc" } }] }
    { Records := [{ SNS := { Message := "abc" } },
                  { SNS := { Message := "zzz" } }] }).1 (by decide)

/-- C10: Transient-error classification is a substring match on the error
text and takes precedence over condition-failed classification: an error
whose message contains `"connection reset by peer"` drives the retry/sleep
path (12 attempts when it persists) even when it also carries the
conditional-check-failed code, with the `(false, nil)` versus `(false,
err)` classification applied only to the error held after the loop exits;
and when such an error occurs once and the next attempt succeeds, the call
returns `(true, nil)` after one sleep and two attempts. -/
theorem C10_transient_precedence (lock : SNSLock) (id : String) (e : DynErr)
    (ht : strContains e.msg connResetMsg = true) :
    (e.awsCode = some ErrCodeConditionalCheckFailedException →
      lock.availableById none (fun _ => some e) id =
        ((false, none), List.replicate 12 lock.TTL, 12)) ∧
    lock.availableById none (fun n => if n = 1 then some e else none) id =
      ((true, none), [lock.TTL], 2) := by
  constructor
  · intro hc
    simp only [SNSLock.availableById]
    rw [putLoop_const_transient lock e ht]
    simp [SNSLock.classify, hc]
  · simp only [SNSLock.availableById, SNSLock.putLoop]
    rw [show (12 : Nat) = 11 + 1 from rfl]
    rw [putLoopAux_retry lock _ 11 1 none e (by simp) ht]
    rw [show (11 : Nat) = 10 + 1 from rfl]
    rw [putLoopAux_success lock _ 10 2 (some e) (by simp)]
    simp [SNSLock.classify]

theorem C10_transient_precedence_witness :
    ((NewSNSLock "r1" "t1" 900 0).availableById none
        (fun _ => some condConnResetErr) "1234" =
      ((false, none), List.replicate 12 900, 12)) ∧
    ((NewSNSLock "r1" "t1" 900 0).availableById none
        (fun n => if n = 1 then some condConnResetErr else none) "1234" =
      ((true, none), [900], 2)) := by
  have h := C10_transient_precedence (NewSNSLock "r1" "t1" 900 0) "1234"
    condConnResetErr (by decide)
  exact ⟨(h.1 (by decide)).trans (by decide), h.2.trans (by decide)⟩
